import Mathlib

/-!
Shallow embedding of `src/i3d.py`: a training script for an I3D-style
action-recognition model.  Pure structure (paths probed, shapes, control
flow, accumulation of metrics) is embedded exactly; floating-point
arithmetic that the observable claims never depend on (bilinear
interpolation inside `transforms.Resize`, the pretrained convolutional
body, per-batch loss values) is represented by uninterpreted parameters,
with pixel values carried in `ℚ`.
-/

/-- Constant DATA_DIR from the script. -/
def DATA_DIR : String := "data/raw_frames"

/-- Constant IMG_HEIGHT from the script. -/
def IMG_HEIGHT : Nat := 224

/-- Constant IMG_WIDTH from the script. -/
def IMG_WIDTH : Nat := 224

/-- Constant NUM_CLASSES from the script. -/
def NUM_CLASSES : Nat := 11

/-- A decoded image tensor of shape (channels, height, width); pixel values
are rationals standing for the script's floats. -/
structure Image where
  channels : Nat
  height : Nat
  width : Nat
  pix : Nat → Nat → Nat → ℚ

/-- The shape triple of an image tensor, as torch.stack compares it. -/
def Image.shape (img : Image) : Nat × Nat × Nat :=
  (img.channels, img.height, img.width)

/-- A raw frame file as stored on disk: a JPEG video frame, which
torchvision.io.read_image decodes to a 3-channel (RGB) uint8 tensor of the
stored height and width. -/
structure RawImage where
  height : Nat
  width : Nat
  pix : Nat → Nat → Nat → Nat

/-- Embedding of read_image(path).float() / 255.0 applied to the raw frame:
a 3-channel float image with values in [0, 1]. -/
def readImageFloat (raw : RawImage) : Image :=
  { channels := 3, height := raw.height, width := raw.width,
    pix := fun c y x => (raw.pix c y x : ℚ) / 255 }

/-- Embedding of torch.zeros((c, h, w)). -/
def zerosImage (c h w : Nat) : Image :=
  { channels := c, height := h, width := w, pix := fun _ _ _ => 0 }

/-- The filesystem state under which the script runs: each path either
holds a raw image file or nothing.  os.path.exists(p) is (fs p).isSome and
read_image reads the stored image. -/
def FileSystem : Type := String → Option RawImage

/-- The interpolation kernel of transforms.Resize (bilinear, floating
point): given the source image and the target height and width it yields
the resized pixel function.  Its arithmetic is uninterpreted; only the
output shape is observable to the claims. -/
def Interp : Type := Image → Nat → Nat → (Nat → Nat → Nat → ℚ)

/-- Embedding of transforms.Resize((h, w)): the channel count is kept and
the spatial size becomes (h, w). -/
def Resize (interp : Interp) (h w : Nat) (img : Image) : Image :=
  { channels := img.channels, height := h, width := w, pix := interp img h w }

/-- Embedding of transforms.Normalize(mean, std): per-channel affine map of
pixel values, shape unchanged. -/
def Normalize (mean std : Nat → ℚ) (img : Image) : Image :=
  { channels := img.channels, height := img.height, width := img.width,
    pix := fun c y x => (img.pix c y x - mean c) / std c }

/-- The mean of the module-level Normalize: [0.485, 0.456, 0.406]. -/
def meanRGB : Nat → ℚ :=
  fun c => if c = 0 then 485/1000 else if c = 1 then 456/1000 else 406/1000

/-- The std of the module-level Normalize: [0.229, 0.224, 0.225]. -/
def stdRGB : Nat → ℚ :=
  fun c => if c = 0 then 229/1000 else if c = 1 then 224/1000 else 225/1000

/-- The module-level transform: Compose([Resize((224, 224)),
Normalize(mean, std)]). -/
def moduleTransform (interp : Interp) : Image → Image :=
  fun img => Normalize meanRGB stdRGB (Resize interp IMG_HEIGHT IMG_WIDTH img)

/-- One parsed annotation row, with the column names the script passes to
pd.read_csv.  Float columns are carried as rationals, behavior_category as
an integer, per the dtype argument. -/
structure AnnotationRow where
  video_name : String
  keyframe : ℚ
  x1 : ℚ
  y1 : ℚ
  x2 : ℚ
  y2 : ℚ
  behavior_category : ℤ
  animal_category : String

/-- Embedding of pd.read_csv(annotations_file, skiprows=1, names=..., dtype=...):
the first line of the file is skipped and each remaining record becomes one
row.  `lines` is the list of records of the file (pandas blank-line skipping
abstracted away); numeric field parsing is represented by `parse`. -/
def read_csv_skiprows1 (parse : List String → AnnotationRow)
    (lines : List (List String)) : List AnnotationRow :=
  (lines.drop 1).map parse

/-- The VideoDataset object: the parsed annotation table and the optional
transform passed at construction. -/
structure VideoDataset where
  annotations : List AnnotationRow
  transform : Option (Image → Image)

/-- VideoDataset.__init__(annotations_file, transform). -/
def VideoDataset.init (parse : List String → AnnotationRow)
    (lines : List (List String)) (t : Option (Image → Image)) : VideoDataset :=
  { annotations := read_csv_skiprows1 parse lines, transform := t }

/-- VideoDataset.__len__: len(self.annotations). -/
def VideoDataset.len (ds : VideoDataset) : Nat :=
  ds.annotations.length

/-- Python str(n) left-padded with zeros to width 5, the meaning of the
format spec 05d for a nonnegative argument. -/
def zfill5 (n : Nat) : String :=
  let s := toString n
  String.mk (List.replicate (5 - s.length) '0') ++ s

/-- os.path.join for two POSIX path components. -/
def ospath_join (a b : String) : String :=
  if b.startsWith "/" then b
  else if a = "" then b
  else if a.endsWith "/" then a ++ b
  else a ++ "/" ++ b

/-- The path probed for the i-th frame of a video:
os.path.join(DATA_DIR, video_name, f-string img_{i:05d}.jpg). -/
def framePath (video_name : String) (i : Nat) : String :=
  ospath_join (ospath_join DATA_DIR video_name) ("img_" ++ zfill5 i ++ ".jpg")

/-- Python int() applied to a float value: truncation toward zero. -/
def pyInt (q : ℚ) : ℤ :=
  if q < 0 then -⌊-q⌋ else ⌊q⌋

/-- The body of the frame loop of __getitem__ at loop index i: if the file
img_{i+1:05d}.jpg exists it is read, scaled to [0,1] floats and passed
through the transform when one is set; otherwise a zero frame of shape
(3, IMG_HEIGHT, IMG_WIDTH) is appended. -/
def probeFrame (fs : FileSystem) (t : Option (Image → Image))
    (video_name : String) (i : Nat) : Image :=
  match fs (framePath video_name (i + 1)) with
  | some raw =>
    let image := readImageFloat raw
    match t with
    | some tr => tr image
    | none => image
  | none => zerosImage 3 IMG_HEIGHT IMG_WIDTH

/-- Embedding of torch.stack: raises (none) on an empty list or on
mismatched tensor shapes, otherwise the stacked sequence. -/
def torchStack (frames : List Image) : Option (List Image) :=
  match frames with
  | [] => none
  | f :: rest =>
    if rest.all (fun g => decide (g.shape = f.shape)) then some (f :: rest)
    else none

/-- VideoDataset.__getitem__(idx).  Returns the list of lines printed by
the debug check together with the result; none stands for a raised
exception (an out-of-range iloc or a failing torch.stack).  The keyframe
value is computed, as in the source, and then unused. -/
def VideoDataset.getitem (fs : FileSystem) (ds : VideoDataset) (idx : Nat) :
    List String × Option (List Image × ℤ) :=
  match ds.annotations[idx]? with
  | none => ([], none)
  | some row =>
    let _keyframe : ℤ := pyInt (row.keyframe * 30)
    let frames : List Image :=
      (List.range 450).map (probeFrame fs ds.transform row.video_name)
    match torchStack frames with
    | none => ([], none)
    | some clip =>
      let label : ℤ := row.behavior_category - 2
      (if label < 0 ∨ (NUM_CLASSES : ℤ) ≤ label then
        ["Invalid label " ++ toString label ++ " at index " ++ toString idx]
       else [],
       some (clip, label))

/-- A rank-5 tensor [d0, d1, d2, d3, d4] with rational entries standing for
the script's floats. -/
structure Tensor5 where
  d0 : Nat
  d1 : Nat
  d2 : Nat
  d3 : Nat
  d4 : Nat
  entry : Nat → Nat → Nat → Nat → Nat → ℚ

/-- Embedding of x.permute(0, 2, 1, 3, 4): dimensions 1 and 2 are swapped,
so a [batch, frames, channels, h, w] input becomes
[batch, channels, frames, h, w]. -/
def Tensor5.permute02134 (x : Tensor5) : Tensor5 :=
  { d0 := x.d0, d1 := x.d2, d2 := x.d1, d3 := x.d3, d4 := x.d4,
    entry := fun i0 i1 i2 i3 i4 => x.entry i0 i2 i1 i3 i4 }

/-- A fully-connected layer nn.Linear(in_features, out_features). -/
structure Linear where
  in_features : Nat
  out_features : Nat
  weight : Nat → Nat → ℚ
  bias : Nat → ℚ

/-- A linear layer applied to one feature vector: out_features scores. -/
def Linear.apply (l : Linear) (v : Nat → ℚ) : List ℚ :=
  (List.range l.out_features).map (fun o =>
    l.bias o + ((List.range l.in_features).map (fun i => l.weight o i * v i)).sum)

/-- The torchvision ResNet3D-18 video model: a convolutional body mapping a
[batch, channels, frames, h, w] tensor to one feature vector per batch
sample, followed by the fc head.  The pretrained body is floating point and
uninterpreted. -/
structure R3D18 where
  body : Tensor5 → List (Nat → ℚ)
  fc : Linear

/-- The ResNet3D forward pass: body then fc head, giving per-sample class
scores. -/
def R3D18.forward (m : R3D18) (x : Tensor5) : List (List ℚ) :=
  (m.body x).map m.fc.apply

/-- The I3D wrapper module of the script: its only submodule is the
(modified) ResNet3D backbone. -/
structure I3D where
  model : R3D18

/-- I3D.__init__(num_classes): load r3d_18 with KINETICS400_V1 weights
(`r3d_18_KINETICS400_V1`, the fixed pretrained instance) and replace
its fc by a freshly initialised nn.Linear(fc.in_features, num_classes)
with weights freshW and bias freshB. -/
def I3D.init (r3d_18_KINETICS400_V1 : R3D18) (freshW : Nat → Nat → ℚ)
    (freshB : Nat → ℚ) (num_classes : Nat) : I3D :=
  { model :=
    { body := r3d_18_KINETICS400_V1.body,
      fc := { in_features := r3d_18_KINETICS400_V1.fc.in_features,
              out_features := num_classes,
              weight := freshW, bias := freshB } } }

/-- I3D.forward(x): permute x to [batch, channels, frames, h, w] and apply
the backbone. -/
def I3D.forward (m : I3D) (x : Tensor5) : List (List ℚ) :=
  m.model.forward (Tensor5.permute02134 x)

/-- One iteration of a training or validation epoch as it reaches the
metric accumulation: the model outputs for the batch (one score list per
sample), the batch labels, and the value of loss.item() (a float,
uninterpreted, carried as a rational). -/
structure Batch where
  outputs : List (List ℚ)
  labels : List ℤ
  loss : ℚ

/-- Embedding of outputs.max(1) indices: the index of the first maximal
score (0 on an empty list, which a Linear head of 11 classes never
produces). -/
def argmaxScores : List ℚ → Nat
  | [] => 0
  | x :: xs => go xs 1 0 x
where
  go : List ℚ → Nat → Nat → ℚ → Nat
    | [], _, best, _ => best
    | y :: ys, i, best, bv =>
      if bv < y then go ys (i + 1) i y else go ys (i + 1) best bv

/-- predicted.eq(labels).sum().item() for one batch: the number of samples
whose argmax prediction equals their label. -/
def batchCorrect (b : Batch) : Nat :=
  (b.outputs.zip b.labels).countP
    (fun p => decide ((argmaxScores p.1 : ℤ) = p.2))

/-- The running accumulators of one epoch: running_loss (resp. val_loss),
correct, total. -/
structure EpochState where
  running_loss : ℚ
  correct : Nat
  total : Nat

/-- One loop iteration of either epoch loop: a none batch is skipped by the
`if clips is None: continue` guard; otherwise running_loss += loss.item(),
total += labels.size(0) and correct += predicted.eq(labels).sum().item(). -/
def stepBatch (s : EpochState) (ob : Option Batch) : EpochState :=
  match ob with
  | none => s
  | some b =>
    { running_loss := s.running_loss + b.loss,
      correct := s.correct + batchCorrect b,
      total := s.total + b.labels.length }

/-- A whole epoch loop (training lines 138-163 and validation lines
172-192 share this accumulation shape), starting from zeroed accumulators. -/
def runEpoch (batches : List (Option Batch)) : EpochState :=
  batches.foldl stepBatch { running_loss := 0, correct := 0, total := 0 }

/-- The reported epoch loss: running_loss / len(loader), the loader length
counting every batch it yielded. -/
def epochLoss (batches : List (Option Batch)) : ℚ :=
  (runEpoch batches).running_loss / (batches.length : ℚ)

/-- The reported epoch accuracy: 100. * correct / total. -/
def epochAccuracy (batches : List (Option Batch)) : ℚ :=
  100 * ((runEpoch batches).correct : ℚ) / ((runEpoch batches).total : ℚ)

/-- Every frame produced by the loop body under the module-level transform
has shape (3, 224, 224): read frames are resized and normalised, missing
frames are zero tensors of that shape. -/
lemma probeFrame_shape (fs : FileSystem) (interp : Interp) (v : String)
    (i : Nat) :
    (probeFrame fs (some (moduleTransform interp)) v i).shape
      = (3, IMG_HEIGHT, IMG_WIDTH) := by
  unfold probeFrame
  cases fs (framePath v (i + 1)) with
  | none => rfl
  | some raw => rfl

/-- torch.stack succeeds on a nonempty list of frames of one common shape
and returns the sequence unchanged. -/
lemma torchStack_eq_some (frames : List Image) (s : Nat × Nat × Nat)
    (hne : frames ≠ []) (hsh : ∀ g ∈ frames, g.shape = s) :
    torchStack frames = some frames := by
  cases frames with
  | nil => exact absurd rfl hne
  | cons f rest =>
    have hall : rest.all (fun g => decide (g.shape = f.shape)) = true := by
      rw [List.all_eq_true]
      intro g hg
      rw [decide_eq_true_eq, hsh g (List.mem_cons_of_mem f hg),
        hsh f (List.mem_cons_self f rest)]
    unfold torchStack
    simp [hall]

/-- Unfolding of __getitem__ at a row that iloc finds. -/
lemma getitem_of_some (fs : FileSystem) (ds : VideoDataset) (idx : Nat)
    (row : AnnotationRow) (hrow : ds.annotations[idx]? = some row) :
    ds.getitem fs idx =
      (match torchStack
          ((List.range 450).map (probeFrame fs ds.transform row.video_name)) with
       | none => ([], none)
       | some clip =>
         (if row.behavior_category - 2 < 0 ∨
             (NUM_CLASSES : ℤ) ≤ row.behavior_category - 2 then
           ["Invalid label " ++ toString (row.behavior_category - 2)
             ++ " at index " ++ toString idx]
          else [],
          some (clip, row.behavior_category - 2))) := by
  unfold VideoDataset.getitem
  rw [hrow]

/-- Under the module-level transform the 450 probed frames share the shape
(3, 224, 224), so torch.stack succeeds and returns them. -/
lemma moduleFrames_stack (fs : FileSystem) (interp : Interp) (v : String) :
    torchStack
        ((List.range 450).map (probeFrame fs (some (moduleTransform interp)) v))
      = some ((List.range 450).map (probeFrame fs (some (moduleTransform interp)) v)) := by
  apply torchStack_eq_some _ (3, IMG_HEIGHT, IMG_WIDTH)
  · simp
  · intro g hg
    rcases List.mem_map.mp hg with ⟨i, _, rfl⟩
    exact probeFrame_shape fs interp v i

/-- Full reduction of __getitem__ for a dataset carrying the module-level
transform: the printed diagnostics and the returned (clip, label) pair. -/
lemma getitem_moduleTransform (fs : FileSystem) (ds : VideoDataset)
    (interp : Interp) (idx : Nat) (row : AnnotationRow)
    (hT : ds.transform = some (moduleTransform interp))
    (hrow : ds.annotations[idx]? = some row) :
    ds.getitem fs idx =
      (if row.behavior_category - 2 < 0 ∨
          (NUM_CLASSES : ℤ) ≤ row.behavior_category - 2 then
        ["Invalid label " ++ toString (row.behavior_category - 2)
          ++ " at index " ++ toString idx]
       else [],
       some ((List.range 450).map (probeFrame fs ds.transform row.video_name),
             row.behavior_category - 2)) := by
  rw [getitem_of_some fs ds idx row hrow, hT, moduleFrames_stack]

/-- The clip component of the result of __getitem__ is the stack of the 450
probed frames, whatever the label columns hold. -/
lemma getitem_snd_map_fst (fs : FileSystem) (ds : VideoDataset) (idx : Nat)
    (row : AnnotationRow) (hrow : ds.annotations[idx]? = some row) :
    ((ds.getitem fs idx).2).map Prod.fst =
      torchStack ((List.range 450).map (probeFrame fs ds.transform row.video_name)) := by
  rw [getitem_of_some fs ds idx row hrow]
  cases torchStack ((List.range 450).map (probeFrame fs ds.transform row.video_name)) with
  | none => rfl
  | some clip => rfl

/-- Closed form of the accumulator fold shared by the training and
validation loops: from an arbitrary start state, running_loss gains the sum
of the per-batch losses, correct the sum of the per-batch match counts, and
total the sum of the batch sizes, none batches being skipped. -/
lemma foldl_stepBatch_eq (bs : List (Option Batch)) (s : EpochState) :
    bs.foldl stepBatch s =
      { running_loss := s.running_loss + ((bs.filterMap id).map Batch.loss).sum,
        correct := s.correct + ((bs.filterMap id).map batchCorrect).sum,
        total := s.total + ((bs.filterMap id).map (fun b => b.labels.length)).sum } := by
  induction bs generalizing s with
  | nil => cases s; simp
  | cons ob rest ih =>
    cases ob with
    | none => simp [stepBatch, ih]
    | some b => simp [stepBatch, ih, add_assoc]

/-- C1: for every dataset index idx (a row that iloc finds), under the
module-level transform, __getitem__ probes the 450 per-frame files
img_00001.jpg .. img_00450.jpg under DATA_DIR/video_name (probeFrame at
loop indices 0..449 probes framePath video_name (i+1)) and returns a clip
stacking exactly 450 frame tensors, one per probed position. -/
theorem getitem_probes_450_frames (fs : FileSystem) (ds : VideoDataset)
    (interp : Interp) (idx : Nat) (row : AnnotationRow)
    (hT : ds.transform = some (moduleTransform interp))
    (hrow : ds.annotations[idx]? = some row) :
    ∃ clip : List Image,
      (ds.getitem fs idx).2 = some (clip, row.behavior_category - 2) ∧
      clip.length = 450 ∧
      ∀ i, i < 450 →
        clip[i]? = some (probeFrame fs ds.transform row.video_name i) := by
  have h := getitem_moduleTransform fs ds interp idx row hT hrow
  refine ⟨(List.range 450).map (probeFrame fs ds.transform row.video_name),
    ?_, ?_, ?_⟩
  · rw [h]
  · simp
  · intro i hi
    simp [hi]

/-- C2: a missing frame file never makes __getitem__ fail: at every frame
position i+1 in 1..450 whose file does not exist, the returned clip holds
the zero tensor of shape (3, IMG_HEIGHT, IMG_WIDTH) instead. -/
theorem getitem_zero_fills_missing_frames (fs : FileSystem)
    (ds : VideoDataset) (interp : Interp) (idx : Nat) (row : AnnotationRow)
    (i : Nat)
    (hT : ds.transform = some (moduleTransform interp))
    (hrow : ds.annotations[idx]? = some row)
    (hi : i < 450)
    (hmiss : fs (framePath row.video_name (i + 1)) = none) :
    ∃ clip : List Image,
      (ds.getitem fs idx).2 = some (clip, row.behavior_category - 2) ∧
      clip[i]? = some (zerosImage 3 IMG_HEIGHT IMG_WIDTH) := by
  have h := getitem_moduleTransform fs ds interp idx row hT hrow
  refine ⟨(List.range 450).map (probeFrame fs ds.transform row.video_name),
    ?_, ?_⟩
  · rw [h]
  · have hget : ((List.range 450).map (probeFrame fs ds.transform row.video_name))[i]?
        = some (probeFrame fs ds.transform row.video_name i) := by
      simp [hi]
    rw [hget]
    unfold probeFrame
    rw [hmiss]

/-- C3: for two rows of one dataset with the same video_name and a fixed
filesystem, __getitem__ returns the same clip tensor: keyframe, the
bounding-box columns and animal_category have no influence on the clip. -/
theorem getitem_clip_depends_only_on_video_name (fs : FileSystem)
    (ds : VideoDataset) (i j : Nat) (ri rj : AnnotationRow)
    (hi : ds.annotations[i]? = some ri)
    (hj : ds.annotations[j]? = some rj)
    (hv : ri.video_name = rj.video_name) :
    ((ds.getitem fs i).2).map Prod.fst = ((ds.getitem fs j).2).map Prod.fst := by
  rw [getitem_snd_map_fst fs ds i ri hi, getitem_snd_map_fst fs ds j rj hj, hv]

/-- C4: I3D wraps the pretrained ResNet3D-18 backbone keeping its body,
replaces its final fc by a fresh linear layer of NUM_CLASSES = 11 outputs
over the same in_features, and I3D.forward permutes the input from
[batch, frames, channels, h, w] to [batch, channels, frames, h, w] before
applying the backbone. -/
theorem I3D_replaces_fc_and_permutes_input (r3d_18_KINETICS400_V1 : R3D18)
    (freshW : Nat → Nat → ℚ) (freshB : Nat → ℚ) :
    (I3D.init r3d_18_KINETICS400_V1 freshW freshB NUM_CLASSES).model.fc.out_features = 11 ∧
    (I3D.init r3d_18_KINETICS400_V1 freshW freshB NUM_CLASSES).model.fc.in_features
      = r3d_18_KINETICS400_V1.fc.in_features ∧
    (I3D.init r3d_18_KINETICS400_V1 freshW freshB NUM_CLASSES).model.body
      = r3d_18_KINETICS400_V1.body ∧
    (∀ x : Tensor5,
      (I3D.init r3d_18_KINETICS400_V1 freshW freshB NUM_CLASSES).forward x =
        R3D18.forward (I3D.init r3d_18_KINETICS400_V1 freshW freshB NUM_CLASSES).model
          (Tensor5.permute02134 x)) ∧
    (∀ x : Tensor5,
      (Tensor5.permute02134 x).d0 = x.d0 ∧
      (Tensor5.permute02134 x).d1 = x.d2 ∧
      (Tensor5.permute02134 x).d2 = x.d1 ∧
      (Tensor5.permute02134 x).d3 = x.d3 ∧
      (Tensor5.permute02134 x).d4 = x.d4 ∧
      ∀ b c f h w, (Tensor5.permute02134 x).entry b c f h w = x.entry b f c h w) :=
  ⟨rfl, rfl, rfl, fun _ => rfl,
   fun _ => ⟨rfl, rfl, rfl, rfl, rfl, fun _ _ _ _ _ => rfl⟩⟩

/-- C5: whenever __getitem__ returns, the label component is the integer
value of the row's behavior_category column minus 2. -/
theorem getitem_label_eq_behavior_category_sub_two (fs : FileSystem)
    (ds : VideoDataset) (idx : Nat) (row : AnnotationRow)
    (clip : List Image) (lab : ℤ)
    (hrow : ds.annotations[idx]? = some row)
    (hres : (ds.getitem fs idx).2 = some (clip, lab)) :
    lab = row.behavior_category - 2 := by
  rw [getitem_of_some fs ds idx row hrow] at hres
  cases hX : torchStack ((List.range 450).map (probeFrame fs ds.transform row.video_name)) with
  | none =>
    rw [hX] at hres
    simp at hres
  | some clip2 =>
    rw [hX] at hres
    simp at hres
    exact hres.2.symm

/-- C6: in either epoch loop, the reported accuracy is 100 times the count
of samples whose argmax prediction equals their label, divided by the total
number of samples processed, the counts being accumulated batch by batch. -/
theorem epochAccuracy_eq_100_mul_correct_div_total
    (batches : List (Option Batch)) :
    epochAccuracy batches =
      100 * ((((batches.filterMap id).map batchCorrect).sum : ℚ)) /
        ((((batches.filterMap id).map (fun b => b.labels.length)).sum : ℚ)) := by
  simp [epochAccuracy, runEpoch, foldl_stepBatch_eq]
  rfl

/-- C7: the reported loss of either epoch loop is the sum of the per-batch
loss values divided by the number of batches the loader yielded, an average
over batches rather than over samples. -/
theorem epochLoss_eq_batch_loss_sum_div_num_batches
    (batches : List (Option Batch)) :
    epochLoss batches =
      ((batches.filterMap id).map Batch.loss).sum / (batches.length : ℚ) := by
  simp [epochLoss, runEpoch, foldl_stepBatch_eq]

/-- C8: under the module-level transform the returned clip always stacks
450 frames of shape (3, 224, 224), whatever frame files exist and whatever
their stored heights and widths. -/
theorem getitem_clip_shape_450_3_224_224 (fs : FileSystem)
    (ds : VideoDataset) (interp : Interp) (idx : Nat) (row : AnnotationRow)
    (hT : ds.transform = some (moduleTransform interp))
    (hrow : ds.annotations[idx]? = some row) :
    ∃ clip : List Image,
      (ds.getitem fs idx).2 = some (clip, row.behavior_category - 2) ∧
      clip.length = 450 ∧
      ∀ frame ∈ clip, frame.shape = (3, IMG_HEIGHT, IMG_WIDTH) := by
  have h := getitem_moduleTransform fs ds interp idx row hT hrow
  refine ⟨(List.range 450).map (probeFrame fs ds.transform row.video_name),
    ?_, ?_, ?_⟩
  · rw [h]
  · simp
  · intro frame hf
    rcases List.mem_map.mp hf with ⟨i, _, rfl⟩
    rw [hT]
    exact probeFrame_shape fs interp row.video_name i

/-- C9: __len__ counts exactly the data rows of the CSV file, the first
line being skipped as a header, and under the module-level transform every
such row yields one (clip, label) pair from __getitem__. -/
theorem VideoDataset_len_eq_csv_rows_minus_header
    (parse : List String → AnnotationRow) (lines : List (List String))
    (interp : Interp) (fs : FileSystem) :
    (∀ t, (VideoDataset.init parse lines t).len = lines.length - 1) ∧
    (∀ idx, idx < lines.length - 1 →
      (((VideoDataset.init parse lines
          (some (moduleTransform interp))).getitem fs idx).2).isSome = true) := by
  constructor
  · intro t
    simp [VideoDataset.init, VideoDataset.len, read_csv_skiprows1]
  · intro idx hidx
    have hlen : idx < ((lines.drop 1).map parse).length := by
      simpa using hidx
    have hrow : (VideoDataset.init parse lines
        (some (moduleTransform interp))).annotations[idx]?
          = some (((lines.drop 1).map parse).get ⟨idx, hlen⟩) := by
      have h1 : idx + 1 < lines.length := by omega
      simp [VideoDataset.init, read_csv_skiprows1,
        List.getElem?_eq_getElem hlen]
      exact ⟨lines[idx + 1], List.getElem?_eq_getElem h1, rfl⟩
    rw [getitem_moduleTransform fs _ interp idx _ rfl hrow]
    rfl

/-- C10: when the adjusted label behavior_category - 2 falls outside
[0, NUM_CLASSES), __getitem__ prints the diagnostic line and still returns
the out-of-range label unchanged together with the clip: the row is
neither filtered, clamped nor rejected. -/
theorem getitem_invalid_label_printed_not_filtered (fs : FileSystem)
    (ds : VideoDataset) (interp : Interp) (idx : Nat) (row : AnnotationRow)
    (hT : ds.transform = some (moduleTransform interp))
    (hrow : ds.annotations[idx]? = some row)
    (hbad : row.behavior_category - 2 < 0 ∨
      (NUM_CLASSES : ℤ) ≤ row.behavior_category - 2) :
    (ds.getitem fs idx).1 =
      ["Invalid label " ++ toString (row.behavior_category - 2)
        ++ " at index " ++ toString idx] ∧
    ∃ clip : List Image,
      (ds.getitem fs idx).2 = some (clip, row.behavior_category - 2) := by
  have h := getitem_moduleTransform fs ds interp idx row hT hrow
  rw [h]
  exact ⟨by rw [if_pos hbad], ⟨_, rfl⟩⟩

/-- A concrete filesystem with no frame files. -/
def fs0 : FileSystem := fun _ => none

/-- A concrete interpolation kernel. -/
def interp0 : Interp := fun _ _ _ _ _ _ => 0

/-- A concrete annotation row with an in-range behavior_category. -/
def row0 : AnnotationRow :=
  { video_name := "vid", keyframe := 0, x1 := 0, y1 := 0, x2 := 0, y2 := 0,
    behavior_category := 5, animal_category := "cow" }

/-- A concrete annotation row of the same video with different keyframe,
bounding box and categories; its adjusted label is out of range. -/
def rowBad : AnnotationRow :=
  { video_name := "vid", keyframe := 7, x1 := 1, y1 := 2, x2 := 3, y2 := 4,
    behavior_category := 0, animal_category := "horse" }

/-- A concrete dataset carrying the module-level transform. -/
def ds0 : VideoDataset :=
  { annotations := [row0, rowBad], transform := some (moduleTransform interp0) }

/-- A concrete field parser. -/
def parse0 : List String → AnnotationRow := fun _ => row0

/-- A concrete two-line CSV file: one header line, one data row. -/
def lines0 : List (List String) := [["header"], ["row"]]

/-- The clip ds0 yields at index 0 under fs0. -/
def clip0 : List Image :=
  (List.range 450).map (probeFrame fs0 ds0.transform row0.video_name)

/-- Witness for C1 at the concrete dataset ds0, filesystem fs0, index 0. -/
theorem getitem_probes_450_frames_witness :
    ∃ clip : List Image,
      (ds0.getitem fs0 0).2 = some (clip, row0.behavior_category - 2) ∧
      clip.length = 450 ∧
      ∀ i, i < 450 →
        clip[i]? = some (probeFrame fs0 ds0.transform row0.video_name i) :=
  getitem_probes_450_frames fs0 ds0 interp0 0 row0 rfl rfl

/-- Witness for C2: under fs0 the first frame file is missing and the clip
holds the zero tensor there. -/
theorem getitem_zero_fills_missing_frames_witness :
    fs0 (framePath row0.video_name (0 + 1)) = none ∧
    ∃ clip : List Image,
      (ds0.getitem fs0 0).2 = some (clip, row0.behavior_category - 2) ∧
      clip[0]? = some (zerosImage 3 IMG_HEIGHT IMG_WIDTH) :=
  ⟨rfl, getitem_zero_fills_missing_frames fs0 ds0 interp0 0 row0 0 rfl rfl
    (by decide) rfl⟩

/-- Witness for C3: the two rows of ds0 share video_name and yield the same
clip. -/
theorem getitem_clip_depends_only_on_video_name_witness :
    ((ds0.getitem fs0 0).2).map Prod.fst = ((ds0.getitem fs0 1).2).map Prod.fst :=
  getitem_clip_depends_only_on_video_name fs0 ds0 0 1 row0 rowBad rfl rfl rfl

/-- Witness for C5 at ds0, index 0: the returned label is 5 - 2. -/
theorem getitem_label_eq_behavior_category_sub_two_witness :
    (3 : ℤ) = row0.behavior_category - 2 :=
  getitem_label_eq_behavior_category_sub_two fs0 ds0 0 row0 clip0 3 rfl
    (by rw [getitem_moduleTransform fs0 ds0 interp0 0 row0 rfl rfl]; rfl)

/-- Witness for C8 at ds0, index 0. -/
theorem getitem_clip_shape_450_3_224_224_witness :
    ∃ clip : List Image,
      (ds0.getitem fs0 0).2 = some (clip, row0.behavior_category - 2) ∧
      clip.length = 450 ∧
      ∀ frame ∈ clip, frame.shape = (3, IMG_HEIGHT, IMG_WIDTH) :=
  getitem_clip_shape_450_3_224_224 fs0 ds0 interp0 0 row0 rfl rfl

/-- Witness for C9 at the concrete two-line file lines0. -/
theorem VideoDataset_len_eq_csv_rows_minus_header_witness :
    (VideoDataset.init parse0 lines0 none).len = lines0.length - 1 ∧
    (((VideoDataset.init parse0 lines0
        (some (moduleTransform interp0))).getitem fs0 0).2).isSome = true :=
  ⟨(VideoDataset_len_eq_csv_rows_minus_header parse0 lines0 interp0 fs0).1 none,
   (VideoDataset_len_eq_csv_rows_minus_header parse0 lines0 interp0 fs0).2 0
     (by decide)⟩

/-- Witness for C10 at ds0, index 1, whose adjusted label is -2. -/
theorem getitem_invalid_label_printed_not_filtered_witness :
    (ds0.getitem fs0 1).1 =
      ["Invalid label " ++ toString (rowBad.behavior_category - 2)
        ++ " at index " ++ toString 1] ∧
    ∃ clip : List Image,
      (ds0.getitem fs0 1).2 = some (clip, rowBad.behavior_category - 2) :=
  getitem_invalid_label_printed_not_filtered fs0 ds0 interp0 1 rowBad rfl rfl
    (by decide)
